import Mathlib

/-!
Verification development for the `test_voice` repository
(`src/voice_for_interview.py`), a Streamlit utility wrapping the Google
Cloud speech-to-text and text-to-speech APIs.

The Python source is shallowly embedded below: byte strings become
`List Nat`, the filesystem becomes an association list from paths to
contents, Python exceptions become `Except PyErr`, and the two vendor
network services are parameters (functions from the request the code
builds to an `Except`-result), since their implementations live outside
this repository.
-/

namespace VoiceApp

/-- Raw bytes (Python `bytes`). -/
abbrev Bytes := List Nat

/-- A Python exception, identified by its rendered message (`str(e)`). -/
structure PyErr where
  msg : String
deriving DecidableEq

/-- A tiny filesystem: an association list from path to byte content.
Lookup takes the most recent entry for a path. -/
structure FS where
  files : List (String × Bytes)
deriving DecidableEq

/-- `os.path.exists` on the byte filesystem. -/
def FS.pathExists (fs : FS) (p : String) : Bool :=
  fs.files.any (fun e => e.1 = p)

/-- Writing a file (used for `tmp_file.write(audio_bytes)`): replaces any
previous content at the path. -/
def FS.write (fs : FS) (p : String) (b : Bytes) : FS :=
  ⟨(p, b) :: fs.files.filter (fun e => ¬ e.1 = p)⟩

/-- `open(path, "rb").read()`: `none` models `FileNotFoundError`. -/
def FS.read (fs : FS) (p : String) : Option Bytes :=
  (fs.files.find? (fun e => e.1 = p)).map (fun e => e.2)

/-- `os.unlink`. -/
def FS.unlink (fs : FS) (p : String) : FS :=
  ⟨fs.files.filter (fun e => ¬ e.1 = p)⟩

/-! ## Speech recognition request/response shapes (vendor contract) -/

/-- One alternative of a recognition result segment. -/
structure SpeechRecognitionAlternative where
  transcript : String
deriving DecidableEq

/-- One result segment of a recognition response. -/
structure SpeechRecognitionResult where
  alternatives : List SpeechRecognitionAlternative
deriving DecidableEq

/-- The response of `client.recognize`. -/
structure RecognizeResponse where
  results : List SpeechRecognitionResult
deriving DecidableEq

/-- `speech.RecognitionConfig(...)` (fields used at line 50-54). -/
structure RecognitionConfig where
  encoding : String
  sample_rate_hertz : Nat
  language_code : String
deriving DecidableEq

/-- `speech.RecognitionAudio(content=...)`. -/
structure RecognitionAudio where
  content : Bytes
deriving DecidableEq

/-- The pair handed to `client.recognize(config=..., audio=...)`. -/
structure RecognizeRequest where
  config : RecognitionConfig
  audio : RecognitionAudio
deriving DecidableEq

/-- The fixed configuration hard-coded at lines 50-54 of the source. -/
def recogConfig : RecognitionConfig :=
  ⟨"LINEAR16", 48000, "en-GB"⟩

/-- The recognition service, an opaque external call: from the request the
code builds to either a response or a raised exception. -/
abbrev SpeechService := RecognizeRequest → Except PyErr RecognizeResponse

/-! ## `transcribe_audio` (lines 35-67) -/

/-- Lines 36-49 of `transcribe_audio`: write the input bytes to the
temporary file (`delete=False`), read the file back, and build the
recognition request. Returns the request (or a raised error) together
with the filesystem as left by these steps. -/
def transcribeRequest (audio_bytes : Bytes) (tmpPath : String) (fs : FS) :
    Except PyErr RecognizeRequest × FS :=
  let fs1 := fs.write tmpPath audio_bytes
  match fs1.read tmpPath with
  | none => (.error ⟨"FileNotFoundError"⟩, fs1)
  | some content => (.ok ⟨recogConfig, ⟨content⟩⟩, fs1)

/-- Lines 63-67: `transcript = ""; for result in response.results:
transcript += result.alternatives[0].transcript`. Indexing an empty
`alternatives` list raises `IndexError`. -/
def extractTranscript : List SpeechRecognitionResult → Except PyErr String
  | [] => .ok ""
  | r :: rs =>
    match r.alternatives with
    | [] => .error ⟨"IndexError: list index out of range"⟩
    | a :: _ =>
      match extractTranscript rs with
      | .error e => .error e
      | .ok rest => .ok (a.transcript ++ rest)

/-- `transcribe_audio(audio_bytes, credentials)` (lines 35-67): builds the
request, performs the single recognition call, unlinks the temporary file
only after a successful call (line 60 runs only when `client.recognize`
returned), then extracts the transcript. The result carries the final
filesystem so the fate of the temporary file is observable. -/
def transcribe_audio (audio_bytes : Bytes) (tmpPath : String)
    (service : SpeechService) (fs : FS) : Except PyErr String × FS :=
  match transcribeRequest audio_bytes tmpPath fs with
  | (.error e, fs1) => (.error e, fs1)
  | (.ok req, fs1) =>
    match service req with
    | .error e => (.error e, fs1)
    | .ok response =>
      let fs2 := fs1.unlink tmpPath
      (extractTranscript response.results, fs2)

/-! ## Python `str.replace` (used at line 131 for the certificate URL) -/

/-- Python `str.replace(old, new)` on character lists: a left-to-right,
non-overlapping scan replacing each occurrence of `old` by `new`.
(The degenerate `old = ""` case, which Python treats specially, never
arises at the call site, where `old = "@"`.) -/
def strFindReplace (old new : List Char) : List Char → List Char
  | [] => []
  | c :: rest =>
    if h : old.isPrefixOf (c :: rest) = true ∧ old ≠ [] then
      new ++ strFindReplace old new ((c :: rest).drop old.length)
    else
      c :: strFindReplace old new rest
termination_by l => l.length
decreasing_by
  · simp only [List.length_drop, List.length_cons]
    have hpos : 0 < old.length := List.length_pos.mpr h.2
    omega
  · simp

/-- Python `s.replace(old, new)` on strings. -/
def pyStrReplace (s old new : String) : String :=
  ⟨strFindReplace old.data new.data s.data⟩

/-! ## The service-account credential dictionary -/

/-- The JSON shape of a service-account credential document: the keys of
the dictionary assembled at lines 121-132 of `main`, equally the shape of
a credential file or hosted secret. -/
structure CredsDict where
  type : String
  project_id : String
  private_key_id : String
  private_key : String
  client_email : String
  client_id : String
  auth_uri : String
  token_uri : String
  auth_provider_x509_cert_url : String
  client_x509_cert_url : String
deriving DecidableEq

/-- The `creds_dict` assembled from the manually entered fields at lines
121-132, including the derived `client_x509_cert_url` computed with
`client_email.replace('@', '%40')`. -/
def buildManualCredsDict (project_id private_key_id private_key
    client_email : String) : CredsDict :=
  { type := "service_account"
    project_id := project_id
    private_key_id := private_key_id
    private_key := private_key
    client_email := client_email
    client_id := ""
    auth_uri := "https://accounts.google.com/o/oauth2/auth"
    token_uri := "https://oauth2.googleapis.com/token"
    auth_provider_x509_cert_url := "https://www.googleapis.com/oauth2/v1/certs"
    client_x509_cert_url :=
      "https://www.googleapis.com/robot/v1/metadata/x509/" ++
        pyStrReplace client_email "@" "%40" }

/-- Spec-side rendering of one character of the email for the certificate
URL: `@` becomes `%40`, every other character is unchanged. -/
def charReplAt (c : Char) : List Char :=
  if c = '@' then ['%', '4', '0'] else [c]

/-- Spec-side encoding of the client email for the certificate URL: every
`@` replaced by `%40`, all other characters unchanged, order preserved. -/
def specEncodeEmail (email : String) : String :=
  ⟨(email.data.map charReplAt).flatten⟩

/-! ## Text-to-speech request/response shapes and `text_to_speech`
(lines 70-97) -/

/-- `texttospeech.SynthesisInput(text=...)`. -/
structure SynthesisInput where
  text : String
deriving DecidableEq

/-- `texttospeech.VoiceSelectionParams(...)` (lines 78-82). -/
structure VoiceSelectionParams where
  language_code : String
  name : String
  ssml_gender : String
deriving DecidableEq

/-- `texttospeech.AudioConfig(...)` (lines 85-87). -/
structure AudioConfig where
  audio_encoding : String
deriving DecidableEq

/-- The triple handed to `client.synthesize_speech(...)`. -/
structure SynthRequest where
  input : SynthesisInput
  voice : VoiceSelectionParams
  audio_config : AudioConfig
deriving DecidableEq

/-- The response of `client.synthesize_speech`. -/
structure SynthResponse where
  audio_content : Bytes
deriving DecidableEq

/-- The synthesis service, an opaque external call. -/
abbrev SynthService := SynthRequest → Except PyErr SynthResponse

/-- `text_to_speech(text, credentials)` (lines 70-97): builds the fixed
voice and audio configuration, performs the single synthesis call, and
returns `response.audio_content`. -/
def text_to_speech (text : String) (service : SynthService) :
    Except PyErr Bytes :=
  let synthesis_input : SynthesisInput := ⟨text⟩
  let voice : VoiceSelectionParams := ⟨"en-GB", "en-GB-Neural2-B", "NEUTRAL"⟩
  let audio_config : AudioConfig := ⟨"MP3"⟩
  match service ⟨synthesis_input, voice, audio_config⟩ with
  | .error e => .error e
  | .ok response => .ok response.audio_content

/-! ## Credential resolution (`load_credentials`, lines 13-32, and the
setup tab of `main`, lines 105-141) -/

/-- The parsed content of an on-disk JSON document: either a valid
service-account dictionary or text that `json.load` rejects. -/
inductive JsonDoc where
  | valid (d : CredsDict)
  | invalid (raw : String)
deriving DecidableEq

/-- The authenticated identity object produced by the vendor SDK,
carrying the service-account info it was built from. -/
structure Credential where
  info : CredsDict
deriving DecidableEq

/-- The error raised when the credential info is not acceptable. -/
def svcAcctFormatError : PyErr :=
  ⟨"ValueError: Service account info was not in the expected format."⟩

/-- Modelled from the spec: the vendor SDK constructor
`service_account.Credentials.from_service_account_info` is not part of
this repository (it lives in `google.oauth2`). Per the spec, a Credential
is derived from a JSON structure containing at minimum `project_id`,
`private_key` and `client_email` (§3), and a missing required field must
not silently produce a credential (§8); malformed input surfaces as a
raised error, not a `None` (§4.1). -/
def from_service_account_info (d : CredsDict) :
    Except PyErr Credential :=
  if d.project_id ≠ "" ∧ d.private_key ≠ "" ∧ d.client_email ≠ "" then
    .ok ⟨d⟩
  else
    .error svcAcctFormatError

/-- A message shown in the UI (`st.warning`, `st.info`, `st.success`,
`st.error`, `st.write`). -/
inductive UIMsg where
  | warning (s : String)
  | info (s : String)
  | success (s : String)
  | errorMsg (s : String)
deriving DecidableEq

/-- The environment `load_credentials` runs in: the optional
`st.secrets["google_credentials"]` value, the credential files on disk,
and the path the user typed into the text input (`none` when the user
left the default untouched). -/
structure SetupEnv where
  secrets : Option CredsDict
  credFiles : List (String × JsonDoc)
  pathTyped : Option String
deriving DecidableEq

/-- `os.path.exists` on the credential-file view of the disk. -/
def credFileExists (files : List (String × JsonDoc)) (p : String) : Bool :=
  files.any (fun e => e.1 = p)

/-- Opening and `json.load`-ing a credential file; `none` when the path
does not exist. -/
def readCredFile (files : List (String × JsonDoc)) (p : String) :
    Option JsonDoc :=
  (files.find? (fun e => e.1 = p)).map (fun e => e.2)

/-- The effective value of the `creds_file` text input (lines 21-24): the
user's text if typed, else the default, which is `"credentials.json"`
when that file exists and `""` otherwise. -/
def effectivePath (env : SetupEnv) : String :=
  match env.pathTyped with
  | some p => p
  | none =>
    if credFileExists env.credFiles "credentials.json" then
      "credentials.json"
    else ""

/-- The error raised by `json.load` on malformed JSON. -/
def jsonDecodeError : PyErr :=
  ⟨"json.decoder.JSONDecodeError: Expecting value: line 1 column 1 (char 0)"⟩

/-- `load_credentials()` (lines 13-32): hosted secret first; otherwise
the text-input path; a nonexistent path yields a warning, an info note
and `None`; an existing path is `json.load`-ed and handed to the SDK
constructor, both of which may raise. Returns the optional credential
and the emitted UI messages, or the raised error. -/
def load_credentials (env : SetupEnv) :
    Except PyErr (Option Credential × List UIMsg) :=
  match env.secrets with
  | some info =>
    match from_service_account_info info with
    | .error e => .error e
    | .ok c => .ok (some c, [])
  | none =>
    let creds_file := effectivePath env
    match readCredFile env.credFiles creds_file with
    | none =>
      .ok (none,
        [.warning ("Credentials file not found: " ++ creds_file),
         .info "Either upload a file or enter credentials manually below"])
    | some (.invalid _) => .error jsonDecodeError
    | some (.valid d) =>
      match from_service_account_info d with
      | .error e => .error e
      | .ok c => .ok (some c, [])

/-- The four manually entered fields (lines 115-118). -/
structure ManualEntry where
  project_id : String
  private_key_id : String
  private_key : String
  client_email : String
deriving DecidableEq

/-- The inputs of the setup tab of `main` (lines 105-141): the
resolution environment, the `use_manual` checkbox, the manual fields and
the `Save Manual Credentials` button state. -/
structure SetupInput where
  env : SetupEnv
  useManual : Bool
  manual : ManualEntry
  saveClicked : Bool
deriving DecidableEq

/-- The setup tab of `main` (lines 105-141): manual mode builds
`creds_dict` and calls the SDK constructor directly (no try/except
around it); otherwise `load_credentials` is called (again with no
try/except) and a truthy result is stored in
`st.session_state["credentials"]`. Returns the session credential after
the run and the emitted messages, or the uncaught raised error. -/
def setupTab (inp : SetupInput) (session : Option Credential) :
    Except PyErr (Option Credential × List UIMsg) :=
  if inp.useManual then
    if inp.saveClicked then
      match from_service_account_info
          (buildManualCredsDict inp.manual.project_id inp.manual.private_key_id
            inp.manual.private_key inp.manual.client_email) with
      | .error e => .error e
      | .ok c => .ok (some c, [.success "Credentials saved!"])
    else .ok (session, [])
  else
    match load_credentials inp.env with
    | .error e => .error e
    | .ok (some c, msgs) =>
      .ok (some c, msgs ++ [.success "Credentials loaded successfully!"])
    | .ok (none, msgs) => .ok (session, msgs)

/-! ## The Speech-to-Text and Text-to-Speech tabs of `main`
(lines 160-200) -/

/-- Python truthiness of the `audio_recorder()` result at line 171:
`None` and empty `bytes` are falsy. -/
def pyTruthyBytes : Option Bytes → Bool
  | none => false
  | some b => !b.isEmpty

/-- What a run of the Speech-to-Text tab leaves behind: the UI messages,
the value of `st.session_state["last_transcript"]` after the run, the
filesystem, and how many times `transcribe_audio` was invoked. -/
structure SpeechTabOutcome where
  msgs : List UIMsg
  lastTranscript : Option String
  fs : FS
  transcribeCalls : Nat
deriving DecidableEq

/-- The Speech-to-Text tab (lines 160-181): with no session credential it
only warns; with a truthy recording it calls `transcribe_audio` once
inside `try`, displaying the transcript and storing it in the session on
success, and catching any exception into `st.error` on failure. The
handler is total: no exception escapes it. -/
def speechTab (creds : Option Credential) (audio : Option Bytes)
    (tmpPath : String) (service : SpeechService) (fs : FS)
    (lastTranscript : Option String) : SpeechTabOutcome :=
  match creds with
  | none =>
    ⟨[.warning "Please set up credentials in the Setup tab first"],
      lastTranscript, fs, 0⟩
  | some _ =>
    if pyTruthyBytes audio then
      match transcribe_audio (audio.getD []) tmpPath service fs with
      | (.ok transcript, fs1) =>
        ⟨[.success "Transcription complete!",
          .info ("**Transcribed Text:** " ++ transcript)],
          some transcript, fs1, 1⟩
      | (.error e, fs1) =>
        ⟨[.errorMsg ("Error during transcription: " ++ e.msg)],
          lastTranscript, fs1, 1⟩
    else ⟨[], lastTranscript, fs, 0⟩

/-- What a run of the Text-to-Speech tab leaves behind: the UI messages,
the audio handed to `st.audio` (if any), and how many times
`text_to_speech` was invoked. -/
structure TtsTabOutcome where
  msgs : List UIMsg
  playedAudio : Option Bytes
  synthesizeCalls : Nat
deriving DecidableEq

/-- The Text-to-Speech tab (lines 183-200): with no session credential it
only warns; otherwise the text area holds the typed text, defaulting to
the last transcript or a fixed greeting, and the button triggers one
`text_to_speech` call inside `try`, playing the audio on success and
catching any exception into `st.error` on failure. -/
def ttsTab (creds : Option Credential) (textTyped : Option String)
    (lastTranscript : Option String) (clicked : Bool)
    (service : SynthService) : TtsTabOutcome :=
  match creds with
  | none =>
    ⟨[.warning "Please set up credentials in the Setup tab first"], none, 0⟩
  | some _ =>
    let default_text := lastTranscript.getD
      "Hello, this is a test of the Google Text-to-Speech API."
    let text_to_convert := textTyped.getD default_text
    if clicked then
      match text_to_speech text_to_convert service with
      | .ok audio_content =>
        ⟨[.success "Conversion complete!"], some audio_content, 1⟩
      | .error e =>
        ⟨[.errorMsg ("Error during text-to-speech conversion: " ++ e.msg)],
          none, 1⟩
    else ⟨[], none, 0⟩

/-! ## Helper lemmas -/

/-- Reading a path right after writing it returns the written bytes. -/
theorem FS.read_write (fs : FS) (p : String) (b : Bytes) :
    (fs.write p b).read p = some b := by
  simp [FS.write, FS.read]

/-- The request-building phase of `transcribe_audio` always succeeds and
submits exactly the input bytes under the fixed configuration, leaving
the temporary file on disk. -/
theorem transcribeRequest_eq (audio : Bytes) (tmp : String) (fs : FS) :
    transcribeRequest audio tmp fs =
      (.ok ⟨recogConfig, ⟨audio⟩⟩, fs.write tmp audio) := by
  simp [transcribeRequest, FS.read_write]

/-- `String.join` peels off the head string. -/
theorem join_cons (s : String) (l : List String) :
    String.join (s :: l) = s ++ String.join l := by
  apply String.ext
  simp [String.join_eq]

/-- When every result segment has at least one alternative, the
transcript loop returns the separator-free, order-preserving
concatenation of the first alternatives. -/
theorem extractTranscript_join (rs : List SpeechRecognitionResult)
    (h : ∀ r ∈ rs, r.alternatives ≠ []) :
    extractTranscript rs =
      .ok (String.join (rs.map
        (fun r => (r.alternatives.headD ⟨""⟩).transcript))) := by
  induction rs with
  | nil => simp [extractTranscript, String.join]
  | cons r rest ih =>
    obtain ⟨a, as, ha⟩ := List.exists_cons_of_ne_nil (h r (by simp))
    have hrest := ih (fun x hx => h x (by simp [hx]))
    simp [extractTranscript, ha, hrest, join_cons]

/-! ## Claim theorems -/

/-- C1: for every recognition response whose result segments each carry a
first alternative, `transcribe_audio` returns exactly the concatenation,
in service order and with no separator, of the first alternative's
transcript of each result segment; with zero result segments this is the
empty string, and no error is raised. -/
theorem transcribe_audio_concats_first_alternatives
    (audio : Bytes) (tmp : String) (fs : FS) (service : SpeechService)
    (resp : RecognizeResponse)
    (hsvc : service ⟨recogConfig, ⟨audio⟩⟩ = .ok resp)
    (halt : ∀ r ∈ resp.results, r.alternatives ≠ []) :
    (transcribe_audio audio tmp service fs).1 =
      .ok (String.join (resp.results.map
        (fun r => (r.alternatives.headD ⟨""⟩).transcript))) := by
  simp [transcribe_audio, transcribeRequest_eq, hsvc,
    extractTranscript_join resp.results halt]

/-- A recognition service returning two result segments, the first with
two alternatives. -/
def svcTwoSegments : SpeechService := fun _ =>
  .ok ⟨[⟨[⟨"hello"⟩, ⟨"HELLO-ALT"⟩]⟩, ⟨[⟨"world"⟩]⟩]⟩

/-- A recognition service returning zero result segments. -/
def svcZeroSegments : SpeechService := fun _ => .ok ⟨[]⟩

/-- Witness for C1: on a two-segment response the result is the
separator-free concatenation of the first alternatives, and on a
zero-segment response it is the empty string. -/
theorem transcribe_audio_concats_first_alternatives_witness :
    (transcribe_audio [1, 2] "/tmp/clip.wav" svcTwoSegments ⟨[]⟩).1 =
      .ok "helloworld" ∧
    (transcribe_audio [1, 2] "/tmp/clip.wav" svcZeroSegments ⟨[]⟩).1 =
      .ok "" := by
  constructor
  · rw [transcribe_audio_concats_first_alternatives [1, 2] "/tmp/clip.wav"
      ⟨[]⟩ svcTwoSegments ⟨[⟨[⟨"hello"⟩, ⟨"HELLO-ALT"⟩]⟩, ⟨[⟨"world"⟩]⟩]⟩
      rfl (by decide)]
    rfl
  · rw [transcribe_audio_concats_first_alternatives [1, 2] "/tmp/clip.wav"
      ⟨[]⟩ svcZeroSegments ⟨[]⟩ rfl (by simp)]
    rfl

/-- C9: writing the input bytes to the temporary file and reading them
back is the identity, so the byte content submitted to the recognition
service equals the input `audio_bytes` exactly. -/
theorem transcribe_submits_input_bytes (audio : Bytes) (tmp : String)
    (fs : FS) :
    (fs.write tmp audio).read tmp = some audio ∧
    (transcribeRequest audio tmp fs).1 = .ok ⟨recogConfig, ⟨audio⟩⟩ := by
  refine ⟨FS.read_write fs tmp audio, ?_⟩
  rw [transcribeRequest_eq]

/-- A recognition service whose single call raises. -/
def svcRaises : SpeechService := fun _ =>
  .error ⟨"503 Service Unavailable"⟩

/-- C2 (evaluation at the failing input): when the recognition call
raises, `transcribe_audio` propagates the error but the temporary file
still exists afterwards — `os.unlink` (line 60) runs only on the success
path, on which the file is indeed gone. -/
theorem tmpfile_survives_failed_call :
    ((transcribe_audio [0, 1, 2] "/tmp/clip.wav" svcRaises ⟨[]⟩).2).pathExists
        "/tmp/clip.wav" = true ∧
    (transcribe_audio [0, 1, 2] "/tmp/clip.wav" svcRaises ⟨[]⟩).1 =
      .error ⟨"503 Service Unavailable"⟩ ∧
    ((transcribe_audio [0, 1, 2] "/tmp/clip.wav" svcZeroSegments
        ⟨[]⟩).2).pathExists "/tmp/clip.wav" = false := by
  refine ⟨rfl, rfl, rfl⟩

/-- `str.replace` with the single-character pattern `@` acts
characterwise. -/
theorem strFindReplace_at (l : List Char) :
    strFindReplace ['@'] ['%', '4', '0'] l = (l.map charReplAt).flatten := by
  induction l with
  | nil => simp [strFindReplace]
  | cons c rest ih =>
    rw [strFindReplace]
    by_cases hc : c = '@'
    · subst hc
      simp [List.isPrefixOf, charReplAt, ih]
    · have hc' : ¬ '@' = c := fun hx => hc hx.symm
      simp [List.isPrefixOf, charReplAt, hc, hc', ih]

/-- C3: the derived `client_x509_cert_url` of the manually assembled
credential dictionary is the fixed prefix
`https://www.googleapis.com/robot/v1/metadata/x509/` followed by the
client email with every `@` replaced by `%40` and every other character
unchanged. -/
theorem manual_cert_url_encodes_email (project_id private_key_id
    private_key client_email : String) :
    (buildManualCredsDict project_id private_key_id private_key
        client_email).client_x509_cert_url =
      "https://www.googleapis.com/robot/v1/metadata/x509/" ++
        specEncodeEmail client_email := by
  have h : pyStrReplace client_email "@" "%40" =
      specEncodeEmail client_email := by
    apply String.ext
    show strFindReplace "@".data "%40".data client_email.data = _
    have hd1 : "@".data = ['@'] := rfl
    have hd2 : "%40".data = ['%', '4', '0'] := rfl
    rw [hd1, hd2, strFindReplace_at]
    rfl
  simp [buildManualCredsDict, h]

/-- C4: `text_to_speech` returns the audio byte buffer of the service
response unmodified. -/
theorem text_to_speech_returns_raw_audio (text : String)
    (service : SynthService) (resp : SynthResponse)
    (hsvc : service ⟨⟨text⟩, ⟨"en-GB", "en-GB-Neural2-B", "NEUTRAL"⟩,
      ⟨"MP3"⟩⟩ = .ok resp) :
    text_to_speech text service = .ok resp.audio_content := by
  simp [text_to_speech, hsvc]

/-- A synthesis service returning a fixed three-byte buffer. -/
def svcSynthFixed : SynthService := fun _ => .ok ⟨[77, 80, 51]⟩

/-- Witness for C4: a concrete synthesis response's bytes come back
unchanged. -/
theorem text_to_speech_returns_raw_audio_witness :
    text_to_speech "hi" svcSynthFixed = .ok [77, 80, 51] :=
  text_to_speech_returns_raw_audio "hi" svcSynthFixed ⟨[77, 80, 51]⟩ rfl

/-- A hosted-secret credential dictionary with all required fields. -/
def secretDict : CredsDict :=
  { type := "service_account"
    project_id := "secret-project"
    private_key_id := "sk-id"
    private_key := "SECRET-KEY"
    client_email := "secret@example.com"
    client_id := ""
    auth_uri := ""
    token_uri := ""
    auth_provider_x509_cert_url := ""
    client_x509_cert_url := "" }

/-- Manually entered fields, distinct from the hosted secret. -/
def manualFields : ManualEntry :=
  ⟨"manual-project", "mk-id", "MANUAL-KEY", "manual@example.com"⟩

/-- Setup-tab input with the hosted secret present while the user has
selected manual entry and clicked save. -/
def manualWithSecretInput : SetupInput :=
  ⟨⟨some secretDict, [], none⟩, true, manualFields, true⟩

/-- C5 counterexample: the hosted secret is present and usable, yet with
manual mode selected the setup flow derives the session credential from
the manually entered fields — a later source is used while an earlier
one is available. -/
theorem manual_mode_bypasses_secret :
    from_service_account_info secretDict = .ok ⟨secretDict⟩ ∧
    setupTab manualWithSecretInput none =
      .ok (some ⟨buildManualCredsDict "manual-project" "mk-id" "MANUAL-KEY"
        "manual@example.com"⟩, [.success "Credentials saved!"]) ∧
    buildManualCredsDict "manual-project" "mk-id" "MANUAL-KEY"
        "manual@example.com" ≠ secretDict := by
  refine ⟨rfl, rfl, fun hx => ?_⟩
  exact absurd (congrArg CredsDict.project_id hx) (by decide)

/-- C5 amended: when manual entry is not selected, the hosted secret is
used whenever present — the file is never consulted — and otherwise an
existing valid file is used; the manually entered fields are used exactly
when manual mode is selected and saved, bypassing both other sources. -/
theorem credential_source_precedence (inp : SetupInput)
    (session : Option Credential) :
    (inp.useManual = false → ∀ s, inp.env.secrets = some s →
      setupTab inp session =
        match from_service_account_info s with
        | .error e => .error e
        | .ok c =>
          .ok (some c, [UIMsg.success "Credentials loaded successfully!"])) ∧
    (inp.useManual = false → inp.env.secrets = none →
      ∀ d, readCredFile inp.env.credFiles (effectivePath inp.env) =
          some (.valid d) →
      setupTab inp session =
        match from_service_account_info d with
        | .error e => .error e
        | .ok c =>
          .ok (some c, [UIMsg.success "Credentials loaded successfully!"])) ∧
    (inp.useManual = true → inp.saveClicked = true →
      setupTab inp session =
        match from_service_account_info (buildManualCredsDict
            inp.manual.project_id inp.manual.private_key_id
            inp.manual.private_key inp.manual.client_email) with
        | .error e => .error e
        | .ok c => .ok (some c, [UIMsg.success "Credentials saved!"])) := by
  refine ⟨?_, ?_, ?_⟩
  · intro h1 s h2
    cases hf : from_service_account_info s with
    | error e => simp [setupTab, h1, load_credentials, h2, hf]
    | ok c => simp [setupTab, h1, load_credentials, h2, hf]
  · intro h1 h2 d hd
    cases hf : from_service_account_info d with
    | error e => simp [setupTab, h1, load_credentials, h2, hd, hf]
    | ok c => simp [setupTab, h1, load_credentials, h2, hd, hf]
  · intro h1 h2
    cases hf : from_service_account_info (buildManualCredsDict
        inp.manual.project_id inp.manual.private_key_id
        inp.manual.private_key inp.manual.client_email) with
    | error e => simp [setupTab, h1, h2, hf]
    | ok c => simp [setupTab, h1, h2, hf]

/-- An on-disk credential dictionary distinct from the hosted secret. -/
def fileDict : CredsDict :=
  { type := "service_account"
    project_id := "file-project"
    private_key_id := "fk-id"
    private_key := "FILE-KEY"
    client_email := "file@example.com"
    client_id := ""
    auth_uri := ""
    token_uri := ""
    auth_provider_x509_cert_url := ""
    client_x509_cert_url := "" }

/-- Setup-tab input with both a hosted secret and a valid default file,
manual mode off. -/
def secretAndFileInput : SetupInput :=
  ⟨⟨some secretDict, [("credentials.json", .valid fileDict)], none⟩,
    false, manualFields, false⟩

/-- Witness for the amended C5: with both a hosted secret and a valid
`credentials.json` on disk, the stored credential is the secret's. -/
theorem credential_source_precedence_witness :
    setupTab secretAndFileInput none =
      .ok (some ⟨secretDict⟩,
        [UIMsg.success "Credentials loaded successfully!"]) := by
  rw [(credential_source_precedence secretAndFileInput none).1 rfl
    secretDict rfl]
  rfl

/-- A path missing from the disk is unreadable. -/
theorem readCredFile_eq_none (files : List (String × JsonDoc)) (p : String)
    (h : credFileExists files p = false) : readCredFile files p = none := by
  induction files with
  | nil => rfl
  | cons e rest ih =>
    simp only [credFileExists, List.any_cons, Bool.or_eq_false_iff] at h
    simp only [readCredFile, List.find?]
    rw [h.1]
    exact ih h.2

/-- C6: with no hosted secret and an effective file path that does not
exist on disk, `load_credentials` emits the warning (and the manual-entry
info note) and returns no credential, raising no exception. -/
theorem missing_file_warns_and_returns_none (env : SetupEnv) (p : String)
    (hsec : env.secrets = none) (hp : effectivePath env = p)
    (hnx : credFileExists env.credFiles p = false) :
    load_credentials env =
      .ok (none, [.warning ("Credentials file not found: " ++ p),
        .info "Either upload a file or enter credentials manually below"]) := by
  have hread := readCredFile_eq_none env.credFiles p hnx
  simp [load_credentials, hsec, hp, hread]

/-- Witness for C6: a typed path `nofile.json` on an empty disk yields
the warning pair and no credential. -/
theorem missing_file_warns_and_returns_none_witness :
    load_credentials ⟨none, [], some "nofile.json"⟩ =
      .ok (none, [.warning "Credentials file not found: nofile.json",
        .info "Either upload a file or enter credentials manually below"]) := by
  rw [missing_file_warns_and_returns_none ⟨none, [], some "nofile.json"⟩
    "nofile.json" rfl rfl rfl]
  rfl

/-- C7 (spec-modelled SDK constructor): through the file branch of the
resolver, a credential JSON with the required fields populated yields a
credential object holding that info, and one with a missing required
field raises rather than silently producing a credential; the manual
branch likewise raises rather than silently producing one when a
required manual field is empty. -/
theorem resolver_requires_fields (env : SetupEnv) (d : CredsDict)
    (inp : SetupInput) (session : Option Credential) :
    (env.secrets = none →
      readCredFile env.credFiles (effectivePath env) = some (.valid d) →
      ((d.project_id ≠ "" ∧ d.private_key ≠ "" ∧ d.client_email ≠ "" →
        load_credentials env = .ok (some ⟨d⟩, [])) ∧
       (¬ (d.project_id ≠ "" ∧ d.private_key ≠ "" ∧ d.client_email ≠ "") →
        load_credentials env = .error svcAcctFormatError))) ∧
    (inp.useManual = true → inp.saveClicked = true →
      inp.manual.private_key = "" →
      setupTab inp session = .error svcAcctFormatError) := by
  constructor
  · intro hsec hread
    constructor
    · intro hfields
      simp [load_credentials, hsec, hread, from_service_account_info, hfields]
    · intro hfields
      simp [load_credentials, hsec, hread, from_service_account_info, hfields]
  · intro h1 h2 hkey
    have hb : (buildManualCredsDict inp.manual.project_id
        inp.manual.private_key_id inp.manual.private_key
        inp.manual.client_email).private_key = "" := hkey
    simp [setupTab, h1, h2, from_service_account_info, hb]

/-- An environment whose default `credentials.json` holds a fully
populated credential document. -/
def envGoodFile : SetupEnv :=
  ⟨none, [("credentials.json", .valid fileDict)], none⟩

/-- A credential document whose required `private_key` field is empty. -/
def incompleteDict : CredsDict :=
  { fileDict with private_key := "" }

/-- An environment whose default `credentials.json` lacks a required
field. -/
def envIncompleteFile : SetupEnv :=
  ⟨none, [("credentials.json", .valid incompleteDict)], none⟩

/-- A manual-mode setup input whose private key field is empty. -/
def emptyKeyManualInput : SetupInput :=
  ⟨⟨none, [], none⟩, true, ⟨"p", "k", "", "e@example.com"⟩, true⟩

/-- Witness for C7: the populated file yields a credential, the
incomplete file raises, and the incomplete manual entry raises. -/
theorem resolver_requires_fields_witness :
    load_credentials envGoodFile = .ok (some ⟨fileDict⟩, []) ∧
    load_credentials envIncompleteFile = .error svcAcctFormatError ∧
    setupTab emptyKeyManualInput none = .error svcAcctFormatError := by
  refine ⟨?_, ?_, ?_⟩
  · exact ((resolver_requires_fields envGoodFile fileDict
      emptyKeyManualInput none).1 rfl rfl).1 (by decide)
  · exact ((resolver_requires_fields envIncompleteFile incompleteDict
      emptyKeyManualInput none).1 rfl rfl).2 (by decide)
  · exact (resolver_requires_fields envGoodFile fileDict
      emptyKeyManualInput none).2 rfl rfl rfl

/-- C10: an existing file whose content `json.load` rejects makes
`load_credentials` raise, and the credential-loading branch of `main`
has no try/except, so `setupTab` propagates the same exception uncaught
instead of returning a warning and `None`. -/
theorem invalid_json_propagates_uncaught (env : SetupEnv) (raw : String)
    (inp : SetupInput) (session : Option Credential)
    (hsec : env.secrets = none)
    (hread : readCredFile env.credFiles (effectivePath env) =
      some (.invalid raw))
    (hinp : inp.env = env) (hman : inp.useManual = false) :
    load_credentials env = .error jsonDecodeError ∧
    setupTab inp session = .error jsonDecodeError := by
  have h1 : load_credentials env = .error jsonDecodeError := by
    simp [load_credentials, hsec, hread]
  exact ⟨h1, by simp [setupTab, hman, hinp, h1]⟩

/-- An environment whose default `credentials.json` holds malformed
JSON. -/
def envBadJson : SetupEnv :=
  ⟨none, [("credentials.json", .invalid "not json")], none⟩

/-- Witness for C10: the malformed file makes both the resolver and the
whole setup tab end in the raised `JSONDecodeError`. -/
theorem invalid_json_propagates_uncaught_witness :
    load_credentials envBadJson = .error jsonDecodeError ∧
    setupTab ⟨envBadJson, false, manualFields, false⟩ none =
      .error jsonDecodeError :=
  invalid_json_propagates_uncaught envBadJson "not json"
    ⟨envBadJson, false, manualFields, false⟩ none rfl rfl rfl rfl

/-- C8: an exception raised by a transcription or synthesis API call is
caught at the call site and rendered as a user-visible error message —
the handler stores and displays no partial result and invokes the
adapter exactly once (no retry) — and empty audio bytes are falsy, so
they never reach the transcription call at all: no outcome is an
uncaught failure. -/
theorem api_errors_caught_at_call_site (c : Credential) (audio : Bytes)
    (tmp : String) (service : SpeechService) (fs : FS)
    (last : Option String) (e : PyErr) (text : String)
    (ssvc : SynthService) (e2 : PyErr) :
    ((transcribe_audio audio tmp service fs).1 = .error e → audio ≠ [] →
      speechTab (some c) (some audio) tmp service fs last =
        ⟨[.errorMsg ("Error during transcription: " ++ e.msg)], last,
          (transcribe_audio audio tmp service fs).2, 1⟩) ∧
    (speechTab (some c) (some []) tmp service fs last =
      ⟨[], last, fs, 0⟩) ∧
    (text_to_speech text ssvc = .error e2 →
      ttsTab (some c) (some text) last true ssvc =
        ⟨[.errorMsg ("Error during text-to-speech conversion: " ++ e2.msg)],
          none, 1⟩) := by
  refine ⟨?_, ?_, ?_⟩
  · intro herr hne
    have htruthy : pyTruthyBytes (some audio) = true := by
      simp [pyTruthyBytes, hne]
    rcases htr : transcribe_audio audio tmp service fs with ⟨res, fs1⟩
    rw [htr] at herr
    simp only at herr
    simp [speechTab, htruthy, htr, herr]
  · simp [speechTab, pyTruthyBytes]
  · intro herr2
    simp [ttsTab, herr2]

/-- A synthesis service whose single call raises. -/
def synthRaises : SynthService := fun _ => .error ⟨"403 Forbidden"⟩

/-- Witness for C8: a failing recognition call ends in the transcription
error message with the session transcript untouched, empty recorded
bytes trigger no call, and a failing synthesis call ends in the
conversion error message with nothing played. -/
theorem api_errors_caught_at_call_site_witness :
    speechTab (some ⟨fileDict⟩) (some [5]) "/tmp/c.wav" svcRaises ⟨[]⟩
        none =
      ⟨[.errorMsg "Error during transcription: 503 Service Unavailable"],
        none, ⟨[("/tmp/c.wav", [5])]⟩, 1⟩ ∧
    speechTab (some ⟨fileDict⟩) (some []) "/tmp/c.wav" svcRaises ⟨[]⟩
        none = ⟨[], none, ⟨[]⟩, 0⟩ ∧
    ttsTab (some ⟨fileDict⟩) (some "hi") none true synthRaises =
      ⟨[.errorMsg "Error during text-to-speech conversion: 403 Forbidden"],
        none, 1⟩ := by
  have h := api_errors_caught_at_call_site ⟨fileDict⟩ [5] "/tmp/c.wav"
    svcRaises ⟨[]⟩ none ⟨"503 Service Unavailable"⟩ "hi" synthRaises
    ⟨"403 Forbidden"⟩
  refine ⟨?_, h.2.1, ?_⟩
  · rw [h.1 rfl (by simp)]
    rfl
  · rw [h.2.2 rfl]
    rfl

end VoiceApp
